import Mathlib

/-!
Verification of the geo-projection, polling and interaction-coordination
core of the `global_weather` frontend (`src/frontend/src/App.js`).

The numeric helper functions are embedded over the real numbers; the
stateful React components are embedded as explicit transition systems
whose events are the suspension/resumption points of the original
asynchronous handlers, interleaved on the single JS thread.
-/

open Real Complex

/-! ## Geo-projection core (`getVectorFromLatLon`, `Sphere.handleClick`) -/

/-- A latitude/longitude pair, in degrees (the units used by the app). -/
structure GeoCoordinate where
  latitude : ℝ
  longitude : ℝ

/-- A 3D point, mirroring `THREE.Vector3` components. -/
structure CartesianPoint where
  x : ℝ
  y : ℝ
  z : ℝ

/-- `THREE.Vector3.prototype.length`: the Euclidean magnitude of the point. -/
noncomputable def vecLength (p : CartesianPoint) : ℝ :=
  Real.sqrt (p.x ^ 2 + p.y ^ 2 + p.z ^ 2)

/-- JavaScript `Math.atan2(y, x)`: the argument of the point `(x, y)`,
in `(-π, π]`, with `atan2 0 0 = 0`. -/
noncomputable def atan2 (y x : ℝ) : ℝ :=
  Complex.arg ((x : ℂ) + (y : ℂ) * Complex.I)

/-- `getVectorFromLatLon` (App.js lines 9-16): latitude/longitude in degrees
and a radius mapped to a 3D vector.
```
const phi = (90 - lat) * (Math.PI / 180);
const theta = (lon + 180) * (Math.PI / 180);
const x = -(radius * Math.sin(phi) * Math.cos(theta));
const z = radius * Math.sin(phi) * Math.sin(theta);
const y = radius * Math.cos(phi);
```
-/
noncomputable def getVectorFromLatLon (lat lon radius : ℝ) : CartesianPoint :=
  let phi := (90 - lat) * (Real.pi / 180)
  let theta := (lon + 180) * (Real.pi / 180)
  { x := -(radius * Real.sin phi * Real.cos theta)
    y := radius * Real.cos phi
    z := radius * Real.sin phi * Real.sin theta }

/-- The inverse mapping computed in `Sphere`'s click handler
(App.js lines 197-200):
```
const phi = Math.acos(point.y / point.length());
const theta = Math.atan2(point.x, point.z);
const lat = 90 - (phi * 180) / Math.PI;
const lon = (theta * 180) / Math.PI;
```
-/
noncomputable def unproject (p : CartesianPoint) : GeoCoordinate :=
  let phi := Real.arccos (p.y / vecLength p)
  let theta := atan2 p.x p.z
  { latitude := 90 - phi * 180 / Real.pi
    longitude := theta * 180 / Real.pi }

/-- `|a - b| ≤ tol`: agreement within a tolerance. -/
def approx (a b tol : ℝ) : Prop := |a - b| ≤ tol

/-- The round-trip property of the spec: `unproject (project c r)` agrees
with `c` componentwise within `tol`. -/
def roundTripsWithin (lat lon r tol : ℝ) : Prop :=
  approx (unproject (getVectorFromLatLon lat lon r)).latitude lat tol ∧
  approx (unproject (getVectorFromLatLon lat lon r)).longitude lon tol

/-! ## Weather-code table (`getWeatherDescription`, App.js lines 19-29) -/

/-- The WMO code table literal from `getWeatherDescription`. -/
def weatherCodes : List (ℤ × String) :=
  [(0, "Clear sky"), (1, "Mainly clear"), (2, "Partly cloudy"), (3, "Overcast"),
   (45, "Fog"), (48, "Rime fog"),
   (51, "Light drizzle"), (53, "Moderate drizzle"), (55, "Dense drizzle"),
   (61, "Slight rain"), (63, "Moderate rain"), (65, "Heavy rain"),
   (80, "Slight rain showers"), (81, "Moderate rain showers"), (82, "Violent rain showers"),
   (95, "Thunderstorm")]

/-- `getWeatherDescription`: `codes[code] || 'Unknown weather'`. The argument
is an `Option` because callers index arrays that may yield `undefined`; a
missing key or an `undefined` argument both fall through `||` to the
sentinel (every table value is a non-empty, hence truthy, string). -/
def getWeatherDescription (code : Option ℤ) : String :=
  match code with
  | some c => (weatherCodes.lookup c).getD "Unknown weather"
  | none => "Unknown weather"

/-! ## ISS poller (`SatelliteTracker`, App.js lines 150-166)

The component holds `issPosition` state (initially `{lat: 0, lon: 0}`) and,
on mount, runs `setInterval(fetchIssPosition, 2000)`. `fetchIssPosition`
starts a fetch unconditionally (there is no in-flight guard), stores the
parsed position on success, and on any failure only logs
`"Failed to fetch ISS position:"` — the error is swallowed by the `catch`.

We embed this as a transition system whose events are the points where the
single JS thread hands control back: a timer firing (`tick`, which runs the
synchronous prefix of `fetchIssPosition` up to its first `await`, i.e. it
starts one more fetch), and an outstanding fetch settling (`resolve` with
the parsed coordinates, or `reject` for a network/parse failure). -/

/-- Observable state of `SatelliteTracker`: the `issPosition` React state,
the number of `fetchIssPosition` invocations currently awaiting their
response, and the `console.error` log. -/
structure IssState where
  issLat : ℚ
  issLon : ℚ
  pending : ℕ
  log : List String
deriving DecidableEq, Repr

/-- `useState({ lat: 0, lon: 0 })`, no fetch started yet, nothing logged. -/
def initIssState : IssState := ⟨0, 0, 0, []⟩

/-- Scheduler/network events driving `SatelliteTracker`. -/
inductive IssEvent where
  | tick
  | resolve (lat lon : ℚ)
  | reject
deriving DecidableEq, Repr

/-- One step of `SatelliteTracker`. `tick` is the interval timer invoking
`fetchIssPosition`: the code has no guard, so it always starts one more
fetch. A `resolve`/`reject` settles one outstanding fetch (a no-op when
none is outstanding): `resolve` runs `setIssPosition`, `reject` runs the
`catch` block, which only appends to the console log. -/
def issStep (s : IssState) : IssEvent → IssState
  | .tick => { s with pending := s.pending + 1 }
  | .resolve lat lon =>
      if 0 < s.pending then
        { s with issLat := lat, issLon := lon, pending := s.pending - 1 }
      else s
  | .reject =>
      if 0 < s.pending then
        { s with pending := s.pending - 1,
                 log := s.log ++ ["Failed to fetch ISS position:"] }
      else s

/-- Run `SatelliteTracker` from its initial state over a list of events. -/
def runIss (es : List IssEvent) : IssState := es.foldl issStep initIssState

/-- Browser `setInterval(f, delayMs)` semantics: the `k`-th invocation of
`f` (counting from 0) fires at time `(k+1) * delayMs` — the first firing
happens only after one full delay, and the schedule never depends on what
`f` does. -/
def setIntervalFireTime (delayMs k : ℕ) : ℕ := (k + 1) * delayMs

/-- The times at which `setInterval(fetchIssPosition, 2000)` invokes
`fetchIssPosition` (App.js line 164); the component body contains no other
call to `fetchIssPosition`, in particular none at mount time. -/
def issFetchTime (k : ℕ) : ℕ := setIntervalFireTime 2000 k

/-! ## Interaction coordinator (`App`, App.js lines 215-251)

`handleGlobeClick(lat, lon, position)` immediately runs
`setClickedInfo({position, countryName: null})`, then awaits the weather
fetch (storing the result with `setWeather`, or `setWeather(null)` plus a
log line on failure), and only then awaits the reverse-geocoding fetch,
storing `countryName` through a functional update that spreads the
previous `clickedInfo`. `handleCloseWeather` resets both pieces of state.
Neither handler compares results against the current selection: there is
no generation counter or identity guard.

Each in-flight invocation of `handleGlobeClick` is identified by a token
`id` chosen at click time; its continuation is either waiting for its
weather response or for its geocoding response. -/

/-- Where an in-flight `handleGlobeClick` invocation is suspended. -/
inductive Phase where
  | awaitWeather
  | awaitGeo
deriving DecidableEq, Repr

/-- Observable state of `App`: the `weather` state (payloads abstracted to
tokens), the `clickedInfo` state (`position` abstracted to a token,
`countryName` a string), the `console.error` log, and the set of in-flight
`handleGlobeClick` invocations with their suspension point. -/
structure AppState where
  weather : Option ℕ
  position : Option ℕ
  countryName : Option String
  log : List String
  procs : List (ℕ × Phase)
deriving DecidableEq, Repr

/-- `useState(null)` for `weather`,
`useState({ position: null, countryName: null })` for `clickedInfo`. -/
def initAppState : AppState := ⟨none, none, none, [], []⟩

/-- Events driving `App`: a globe click starting `handleGlobeClick`, the
settlement of a given invocation's weather or geocoding fetch (`geoOk`
carries `geoData.address?.country`), and the close button. -/
inductive AppEvent where
  | click (id : ℕ) (lat lon : ℚ) (pos : ℕ)
  | weatherOk (id : ℕ) (w : ℕ)
  | weatherErr (id : ℕ)
  | geoOk (id : ℕ) (country : Option String)
  | geoErr (id : ℕ)
  | close
deriving DecidableEq, Repr

/-- `setWeather(w)` (App.js lines 227 and 230). -/
def setWeatherUpdate (w : Option ℕ) (s : AppState) : AppState :=
  { s with weather := w }

/-- `setClickedInfo(prev => ({ ...prev, countryName: c }))`
(App.js lines 238, 240 and 244): only `countryName` changes. -/
def setCountryUpdate (c : String) (s : AppState) : AppState :=
  { s with countryName := some c }

/-- One step of `App`. Settlement events for an invocation that is not
suspended at the matching point are not enabled and leave the state
unchanged. `close` does not touch `procs`: closing the panel cancels
nothing, the suspended invocations keep running. -/
def appStep (s : AppState) : AppEvent → AppState
  | .click id _lat _lon pos =>
      { s with position := some pos, countryName := none,
               procs := s.procs ++ [(id, Phase.awaitWeather)] }
  | .weatherOk id w =>
      if (id, Phase.awaitWeather) ∈ s.procs then
        { setWeatherUpdate (some w) s with
            procs := s.procs.filter (fun q => q.1 != id) ++ [(id, Phase.awaitGeo)] }
      else s
  | .weatherErr id =>
      if (id, Phase.awaitWeather) ∈ s.procs then
        { setWeatherUpdate none s with
            log := s.log ++ ["Failed to fetch weather data:"],
            procs := s.procs.filter (fun q => q.1 != id) ++ [(id, Phase.awaitGeo)] }
      else s
  | .geoOk id country =>
      if (id, Phase.awaitGeo) ∈ s.procs then
        { setCountryUpdate (country.getD "Unknown Country") s with
            procs := s.procs.filter (fun q => q.1 != id) }
      else s
  | .geoErr id =>
      if (id, Phase.awaitGeo) ∈ s.procs then
        { setCountryUpdate "Unknown Country" s with
            log := s.log ++ ["Failed to fetch country name:"],
            procs := s.procs.filter (fun q => q.1 != id) }
      else s
  | .close =>
      { s with weather := none, position := none, countryName := none }

/-- Run `App` from its initial state over a list of events. -/
def runApp (es : List AppEvent) : AppState := es.foldl appStep initAppState

/-! ## Claims about the poller (C2, C5, C6) -/

/-- C2, counterexample: `fetchIssPosition` has no in-flight guard, so two
interval ticks with no intervening completion leave two fetches pending —
the claim that a tick firing during a pending fetch starts no new fetch is
false of the code. -/
theorem c2_overlapping_fetches_counterexample :
    (runIss [IssEvent.tick, IssEvent.tick]).pending = 2 ∧
    ¬(runIss [IssEvent.tick, IssEvent.tick]).pending ≤ 1 := by decide

/-- C2, amended: a poll tick always starts one more fetch, whether or not
a previous fetch is still pending — nothing is skipped, so the number of
concurrently pending fetches is unbounded (two ticks without a completion
already yield two). -/
theorem c2_tick_always_starts_fetch :
    (∀ s : IssState, (issStep s IssEvent.tick).pending = s.pending + 1) ∧
    (runIss [IssEvent.tick, IssEvent.tick]).pending = 2 :=
  ⟨fun _ => rfl, by decide⟩

/-- C5, counterexample: `SatelliteTracker` only registers
`setInterval(fetchIssPosition, 2000)` and never calls `fetchIssPosition`
directly, so the first fetch attempt happens at 2000 ms, not immediately
on start as the claim states. -/
theorem c5_no_immediate_fetch_counterexample :
    issFetchTime 0 = 2000 ∧ issFetchTime 0 ≠ 0 := by decide

/-- C5, amended: the poller waits one full interval (2000 ms) before its
first fetch attempt, and thereafter attempts recur every 2000 ms; the
schedule is a pure function of the attempt index, so a failed and a
successful attempt are followed by the same fixed interval (no backoff). -/
theorem c5_fixed_interval_schedule :
    issFetchTime 0 = 2000 ∧
    (∀ k, issFetchTime (k + 1) = issFetchTime k + 2000) := by
  refine ⟨rfl, fun k => ?_⟩
  simp [issFetchTime, setIntervalFireTime]
  ring

/-- C6: when a pending fetch fails, the `catch` block leaves `issPosition`
(the poller's last value) unchanged, appends the failure to the console
log, and does nothing else — in particular the error is swallowed rather
than raised, and the state is exactly the old state with one fewer pending
fetch and one more log line. -/
theorem c6_failure_retains_stale_value (s : IssState) (h : 0 < s.pending) :
    issStep s IssEvent.reject =
      { s with pending := s.pending - 1,
               log := s.log ++ ["Failed to fetch ISS position:"] } ∧
    (issStep s IssEvent.reject).issLat = s.issLat ∧
    (issStep s IssEvent.reject).issLon = s.issLon := by
  simp [issStep, h]

/-- C6, witness: a poller that last saw position (3, 4) and has one fetch
pending keeps (3, 4) when that fetch fails, and logs the failure. -/
theorem c6_failure_retains_stale_value_witness :
    0 < (IssState.mk 3 4 1 []).pending ∧
    ((issStep ⟨3, 4, 1, []⟩ IssEvent.reject).issLat = 3 ∧
     (issStep ⟨3, 4, 1, []⟩ IssEvent.reject).issLon = 4 ∧
     (issStep ⟨3, 4, 1, []⟩ IssEvent.reject).log =
       ["Failed to fetch ISS position:"]) := by
  refine ⟨by decide, ?_, ?_, ?_⟩
  · exact (c6_failure_retains_stale_value ⟨3, 4, 1, []⟩ (by decide)).2.1
  · exact (c6_failure_retains_stale_value ⟨3, 4, 1, []⟩ (by decide)).2.2
  · have h := (c6_failure_retains_stale_value ⟨3, 4, 1, []⟩ (by decide)).1
    rw [h]
    rfl

/-! ## Claims about the interaction coordinator (C3, C4, C7, C8) -/

/-- C3, counterexample: click, dismiss before either lookup resolves, then
let both resolve — the late weather result repopulates `weather` and the
late geocoding result repopulates `countryName` on the dismissed
selection, so the state is not left cleared as the claim requires. -/
theorem c3_dismissal_counterexample :
    runApp [AppEvent.click 0 11 22 7, AppEvent.close,
            AppEvent.weatherOk 0 42, AppEvent.geoOk 0 (some "Atlantis")] =
      ⟨some 42, none, some "Atlantis", [], []⟩ ∧
    ¬((runApp [AppEvent.click 0 11 22 7, AppEvent.close,
               AppEvent.weatherOk 0 42, AppEvent.geoOk 0 (some "Atlantis")]).weather = none ∧
      (runApp [AppEvent.click 0 11 22 7, AppEvent.close,
               AppEvent.weatherOk 0 42, AppEvent.geoOk 0 (some "Atlantis")]).countryName
        = none) := by decide

/-- C3, amended: dismissal clears the selection, but in-flight lookups are
not discarded — a weather result arriving after dismissal sets `weather`
again and a late place-name result sets `countryName`; only `position`
stays cleared (which is all that keeps the dismissed panel hidden). -/
theorem c3_late_results_repopulate (id pos w : ℕ) (lat lon : ℚ) (c : String) :
    runApp [AppEvent.click id lat lon pos, AppEvent.close,
            AppEvent.weatherOk id w, AppEvent.geoOk id (some c)] =
      ⟨some w, none, some c, [], []⟩ := by
  simp [runApp, appStep, initAppState, setWeatherUpdate, setCountryUpdate]

/-- C4, counterexample: a second selection is made while the first
selection's weather lookup is still in flight; after the second selection
is fully populated (weather 9), the first selection's late weather result
(5) overwrites the current selection's `weather` field. -/
theorem c4_overwrite_counterexample :
    (runApp [AppEvent.click 1 0 0 7, AppEvent.click 2 0 0 8,
             AppEvent.weatherOk 2 9, AppEvent.geoOk 2 (some "B")]).weather = some 9 ∧
    (runApp [AppEvent.click 1 0 0 7, AppEvent.click 2 0 0 8,
             AppEvent.weatherOk 2 9, AppEvent.geoOk 2 (some "B"),
             AppEvent.weatherOk 1 5]).weather = some 5 := by decide

/-- C4, amended: there is no identity guard, so lookup results of a
superseded selection do overwrite the current selection's fields whenever
they arrive after it: the late weather result of the first click always
replaces the second click's weather. -/
theorem c4_superseded_results_overwrite (p1 p2 w1 w2 : ℕ) (c : String) :
    (runApp [AppEvent.click 1 0 0 p1, AppEvent.click 2 0 0 p2,
             AppEvent.weatherOk 2 w2, AppEvent.geoOk 2 (some c),
             AppEvent.weatherOk 1 w1]).weather = some w1 := by
  simp [runApp, appStep, initAppState, setWeatherUpdate, setCountryUpdate]

/-- C7: whether the place-name lookup rejects or succeeds without a
country in its payload, the selection still ends fully populated with the
sentinel "Unknown Country": both fields are set, no invocation is left
suspended, and no error escapes (the failure only adds a log line). -/
theorem c7_geo_failure_still_populates (id pos w : ℕ) (lat lon : ℚ) :
    ((runApp [AppEvent.click id lat lon pos, AppEvent.weatherOk id w,
              AppEvent.geoErr id]).countryName = some "Unknown Country" ∧
     (runApp [AppEvent.click id lat lon pos, AppEvent.weatherOk id w,
              AppEvent.geoErr id]).weather = some w ∧
     (runApp [AppEvent.click id lat lon pos, AppEvent.weatherOk id w,
              AppEvent.geoErr id]).position = some pos ∧
     (runApp [AppEvent.click id lat lon pos, AppEvent.weatherOk id w,
              AppEvent.geoErr id]).procs = []) ∧
    ((runApp [AppEvent.click id lat lon pos, AppEvent.weatherOk id w,
              AppEvent.geoOk id none]).countryName = some "Unknown Country" ∧
     (runApp [AppEvent.click id lat lon pos, AppEvent.weatherOk id w,
              AppEvent.geoOk id none]).weather = some w ∧
     (runApp [AppEvent.click id lat lon pos, AppEvent.weatherOk id w,
              AppEvent.geoOk id none]).position = some pos ∧
     (runApp [AppEvent.click id lat lon pos, AppEvent.weatherOk id w,
              AppEvent.geoOk id none]).procs = []) := by
  simp [runApp, appStep, initAppState, setWeatherUpdate, setCountryUpdate]

/-- C8: the weather update (`setWeather`) writes only `weather` and the
place-name update (`setClickedInfo(prev => ...)`) writes only
`countryName`, so the two completions commute: applied to any state in
either order they produce the same state, whose populated fields are
exactly the two lookup results. -/
theorem c8_lookup_updates_commute (s : AppState) (w : Option ℕ) (c : String) :
    setCountryUpdate c (setWeatherUpdate w s) = setWeatherUpdate w (setCountryUpdate c s) ∧
    (setCountryUpdate c (setWeatherUpdate w s)).weather = w ∧
    (setCountryUpdate c (setWeatherUpdate w s)).countryName = some c := by
  simp [setWeatherUpdate, setCountryUpdate]

/-! ## Claim about the weather-code table (C10) -/

/-- C10: `getWeatherDescription` is total and deterministic — its table
has exactly 16 entries, each listed WMO code maps to its table string, any
code outside the table maps to "Unknown weather", and an `undefined`
argument also maps to "Unknown weather". -/
theorem c10_getWeatherDescription_total :
    weatherCodes.length = 16 ∧
    (∀ c s, (c, s) ∈ weatherCodes → getWeatherDescription (some c) = s) ∧
    (∀ c : ℤ, c ∉ weatherCodes.map Prod.fst →
      getWeatherDescription (some c) = "Unknown weather") ∧
    getWeatherDescription none = "Unknown weather" := by
  refine ⟨rfl, ?_, ?_, rfl⟩
  · intro c s h
    fin_cases h <;> rfl
  · intro c hc
    simp only [weatherCodes, List.map_cons, List.map_nil, List.mem_cons, List.not_mem_nil,
      or_false, not_or] at hc
    obtain ⟨h0, h1, h2, h3, h45, h48, h51, h53, h55, h61, h63, h65, h80, h81, h82, h95⟩ := hc
    simp [getWeatherDescription, weatherCodes, List.lookup,
      beq_eq_false_iff_ne.mpr h0, beq_eq_false_iff_ne.mpr h1, beq_eq_false_iff_ne.mpr h2,
      beq_eq_false_iff_ne.mpr h3, beq_eq_false_iff_ne.mpr h45, beq_eq_false_iff_ne.mpr h48,
      beq_eq_false_iff_ne.mpr h51, beq_eq_false_iff_ne.mpr h53, beq_eq_false_iff_ne.mpr h55,
      beq_eq_false_iff_ne.mpr h61, beq_eq_false_iff_ne.mpr h63, beq_eq_false_iff_ne.mpr h65,
      beq_eq_false_iff_ne.mpr h80, beq_eq_false_iff_ne.mpr h81, beq_eq_false_iff_ne.mpr h82,
      beq_eq_false_iff_ne.mpr h95]

/-- C10, witness: a listed code, an unlisted code and an `undefined`
argument, evaluated through the theorem. -/
theorem c10_getWeatherDescription_total_witness :
    ((95 : ℤ), "Thunderstorm") ∈ weatherCodes ∧
    (42 : ℤ) ∉ weatherCodes.map Prod.fst ∧
    (getWeatherDescription (some 95) = "Thunderstorm" ∧
     getWeatherDescription (some 42) = "Unknown weather" ∧
     getWeatherDescription none = "Unknown weather") := by
  refine ⟨by decide, by decide, ?_, ?_, ?_⟩
  · exact c10_getWeatherDescription_total.2.1 95 "Thunderstorm" (by decide)
  · exact c10_getWeatherDescription_total.2.2.1 42 (by decide)
  · exact c10_getWeatherDescription_total.2.2.2

/-! ## Claims about the geo-projection (C1, C9) -/

/-- The projected point has magnitude exactly `radius`: the radius acts as
a pure scale factor in `getVectorFromLatLon`. -/
theorem vecLength_getVector (lat lon r : ℝ) (hr : 0 ≤ r) :
    vecLength (getVectorFromLatLon lat lon r) = r := by
  unfold getVectorFromLatLon vecLength
  simp only
  rw [show (-(r * Real.sin ((90 - lat) * (Real.pi / 180)) *
        Real.cos ((lon + 180) * (Real.pi / 180)))) ^ 2 +
      (r * Real.cos ((90 - lat) * (Real.pi / 180))) ^ 2 +
      (r * Real.sin ((90 - lat) * (Real.pi / 180)) *
        Real.sin ((lon + 180) * (Real.pi / 180))) ^ 2
      = r ^ 2 * ((Real.sin ((90 - lat) * (Real.pi / 180))) ^ 2 *
          ((Real.sin ((lon + 180) * (Real.pi / 180))) ^ 2 +
           (Real.cos ((lon + 180) * (Real.pi / 180))) ^ 2) +
          (Real.cos ((90 - lat) * (Real.pi / 180))) ^ 2) from by ring,
    Real.sin_sq_add_cos_sq, mul_one, Real.sin_sq_add_cos_sq, mul_one, Real.sqrt_sq hr]

/-- C1, counterexample: at the equator point `lat = 0, lon = 0` (far from
the poles) with radius 1, the round trip `unproject ∘ project` returns
longitude 90, not 0 — `project` maps longitude through
`theta = (lon+180)·π/180` while `unproject` reads the angle back as
`atan2(x, z)` with no matching offset, so the round trip is off by 90°
of longitude and fails the 1e-6 tolerance. -/
theorem c1_roundtrip_counterexample : ¬roundTripsWithin 0 0 1 (1 / 1000000) := by
  have h1 : getVectorFromLatLon 0 0 1 = ⟨1, 0, 0⟩ := by
    unfold getVectorFromLatLon
    rw [show (90 - (0:ℝ)) * (Real.pi / 180) = Real.pi / 2 from by ring,
        show ((0:ℝ) + 180) * (Real.pi / 180) = Real.pi from by ring]
    simp [Real.sin_pi_div_two, Real.cos_pi_div_two, Real.sin_pi, Real.cos_pi]
  have h2 : unproject ⟨1, 0, 0⟩ = ⟨0, 90⟩ := by
    unfold unproject vecLength atan2
    norm_num
    constructor
    · field_simp
      ring
    · field_simp
      ring
  intro h
  rw [roundTripsWithin, h1, h2] at h
  have hlon := h.2
  rw [approx] at hlon
  norm_num at hlon

/-- C1, amended: for any non-polar coordinate and positive radius, the
round trip recovers the latitude exactly, but the longitude comes back
shifted by +90° and wrapped into `(-180, 180]` (it equals
`lon + 90 - 360·k` for an integer `k`), instead of equalling `lon`. -/
theorem c1_roundtrip_amended (lat lon r : ℝ)
    (h1 : -90 < lat) (h2 : lat < 90) (hr : 0 < r) :
    (unproject (getVectorFromLatLon lat lon r)).latitude = lat ∧
    ∃ k : ℤ,
      (unproject (getVectorFromLatLon lat lon r)).longitude = lon + 90 - 360 * k ∧
      -180 < (unproject (getVectorFromLatLon lat lon r)).longitude ∧
      (unproject (getVectorFromLatLon lat lon r)).longitude ≤ 180 := by
  have hπ := Real.pi_pos
  set φ := (90 - lat) * (Real.pi / 180) with hφ
  set θ := (lon + 180) * (Real.pi / 180) with hθ
  have hφ0 : 0 < φ := by
    apply mul_pos (by linarith) (by positivity)
  have hφπ : φ < Real.pi := by
    have hlt : φ < 180 * (Real.pi / 180) := by
      apply mul_lt_mul_of_pos_right (by linarith) (by positivity)
    linarith [show (180:ℝ) * (Real.pi / 180) = Real.pi from by ring]
  have hsinφ : 0 < Real.sin φ := Real.sin_pos_of_pos_of_lt_pi hφ0 hφπ
  have hL := vecLength_getVector lat lon r hr.le
  constructor
  · show 90 - Real.arccos ((getVectorFromLatLon lat lon r).y /
        vecLength (getVectorFromLatLon lat lon r)) * 180 / Real.pi = lat
    rw [hL]
    show 90 - Real.arccos (r * Real.cos φ / r) * 180 / Real.pi = lat
    rw [mul_div_cancel_left₀ _ (ne_of_gt hr), Real.arccos_cos hφ0.le hφπ.le, hφ]
    field_simp
  · set α := θ - Real.pi / 2 with hα
    set αm := toIocMod Real.two_pi_pos (-Real.pi) α with hαm
    set kdiv := toIocDiv Real.two_pi_pos (-Real.pi) α with hkdiv
    have hmem : αm ∈ Set.Ioc (-Real.pi) Real.pi := by
      have h := toIocMod_mem_Ioc Real.two_pi_pos (-Real.pi) α
      rwa [show -Real.pi + 2 * Real.pi = Real.pi from by ring] at h
    have hk : α = αm + (kdiv : ℝ) * (2 * Real.pi) := by
      have hksum := toIocMod_add_toIocDiv_zsmul Real.two_pi_pos (-Real.pi) α
      rw [hαm, hkdiv, ← zsmul_eq_mul]
      exact hksum.symm
    have hth : atan2 (getVectorFromLatLon lat lon r).x (getVectorFromLatLon lat lon r).z
        = αm := by
      show Complex.arg (((r * Real.sin φ * Real.sin θ : ℝ) : ℂ) +
          ((-(r * Real.sin φ * Real.cos θ) : ℝ) : ℂ) * Complex.I) = _
      have hrw : (((r * Real.sin φ * Real.sin θ : ℝ) : ℂ) +
          ((-(r * Real.sin φ * Real.cos θ) : ℝ) : ℂ) * Complex.I)
          = ((r * Real.sin φ : ℝ) : ℂ) *
            (((Real.cos α : ℝ) : ℂ) + ((Real.sin α : ℝ) : ℂ) * Complex.I) := by
        rw [hα, Real.cos_sub_pi_div_two, Real.sin_sub_pi_div_two]
        push_cast
        ring
      rw [hrw, Complex.arg_real_mul _ (mul_pos hr hsinφ)]
      have hcos : Real.cos α = Real.cos αm := by
        rw [hk, Real.cos_add_int_mul_two_pi]
      have hsin : Real.sin α = Real.sin αm := by
        rw [hk, Real.sin_add_int_mul_two_pi]
      rw [hcos, hsin, Complex.ofReal_cos, Complex.ofReal_sin]
      exact Complex.arg_cos_add_sin_mul_I hmem
    refine ⟨kdiv, ?_, ?_, ?_⟩
    · show atan2 (getVectorFromLatLon lat lon r).x (getVectorFromLatLon lat lon r).z
          * 180 / Real.pi = lon + 90 - 360 * kdiv
      rw [hth]
      have hsub : αm = α - (kdiv : ℝ) * (2 * Real.pi) := by linarith [hk]
      rw [hsub, hα, hθ]
      field_simp
      ring
    · show -180 < atan2 (getVectorFromLatLon lat lon r).x (getVectorFromLatLon lat lon r).z
          * 180 / Real.pi
      rw [hth]
      have h180 : (0:ℝ) < 180 / Real.pi := by positivity
      calc (-180 : ℝ) = -Real.pi * (180 / Real.pi) := by
            field_simp
            ring
        _ < αm * (180 / Real.pi) := mul_lt_mul_of_pos_right hmem.1 h180
        _ = αm * 180 / Real.pi := by ring
    · show atan2 (getVectorFromLatLon lat lon r).x (getVectorFromLatLon lat lon r).z
          * 180 / Real.pi ≤ 180
      rw [hth]
      have h180 : (0:ℝ) < 180 / Real.pi := by positivity
      calc αm * 180 / Real.pi = αm * (180 / Real.pi) := by ring
        _ ≤ Real.pi * (180 / Real.pi) := mul_le_mul_of_nonneg_right hmem.2 h180.le
        _ = 180 := by field_simp

/-- C1, witness: the amended round trip at `lat = 0, lon = 0, r = 1`. -/
theorem c1_roundtrip_amended_witness :
    (-90 : ℝ) < 0 ∧ (0 : ℝ) < 90 ∧ (0 : ℝ) < 1 ∧
    ((unproject (getVectorFromLatLon 0 0 1)).latitude = 0 ∧
     ∃ k : ℤ,
       (unproject (getVectorFromLatLon 0 0 1)).longitude = 0 + 90 - 360 * k ∧
       -180 < (unproject (getVectorFromLatLon 0 0 1)).longitude ∧
       (unproject (getVectorFromLatLon 0 0 1)).longitude ≤ 180) :=
  ⟨by norm_num, by norm_num, by norm_num,
   c1_roundtrip_amended 0 0 1 (by norm_num) (by norm_num) (by norm_num)⟩

/-- C9: `unproject` only uses the direction of its input — `point.y` is
divided by `point.length()` and `atan2` is homogeneous under positive
scaling — so scaling a point of nonzero magnitude by any positive constant
leaves the result unchanged. -/
theorem c9_unproject_scale_invariant (p : CartesianPoint) (k : ℝ)
    (hk : 0 < k) (hp : vecLength p ≠ 0) :
    unproject ⟨k * p.x, k * p.y, k * p.z⟩ = unproject p := by
  have hL : vecLength ⟨k * p.x, k * p.y, k * p.z⟩ = k * vecLength p := by
    unfold vecLength
    rw [show (k * p.x) ^ 2 + (k * p.y) ^ 2 + (k * p.z) ^ 2
          = k ^ 2 * (p.x ^ 2 + p.y ^ 2 + p.z ^ 2) from by ring,
        Real.sqrt_mul (sq_nonneg k), Real.sqrt_sq hk.le]
  have hdiv : k * p.y / vecLength ⟨k * p.x, k * p.y, k * p.z⟩ = p.y / vecLength p := by
    rw [hL, mul_div_mul_left _ _ (ne_of_gt hk)]
  have hth : atan2 (k * p.x) (k * p.z) = atan2 p.x p.z := by
    unfold atan2
    rw [show ((k * p.z : ℝ) : ℂ) + ((k * p.x : ℝ) : ℂ) * Complex.I
          = (k : ℂ) * (((p.z : ℝ) : ℂ) + ((p.x : ℝ) : ℂ) * Complex.I) from by push_cast; ring]
    exact Complex.arg_real_mul _ hk
  unfold unproject
  simp only [hdiv, hth]

/-- C9, witness: doubling the point `(1, 2, 2)` (magnitude 3) leaves
`unproject` unchanged. -/
theorem c9_unproject_scale_invariant_witness :
    (0 : ℝ) < 2 ∧ vecLength ⟨1, 2, 2⟩ ≠ 0 ∧
    unproject ⟨2 * 1, 2 * 2, 2 * 2⟩ = unproject ⟨1, 2, 2⟩ := by
  have hp : vecLength (⟨1, 2, 2⟩ : CartesianPoint) ≠ 0 := by
    unfold vecLength
    positivity
  exact ⟨by norm_num, hp, c9_unproject_scale_invariant ⟨1, 2, 2⟩ 2 (by norm_num) hp⟩
